import Mathlib

/-!
Verification of the model-discovery / session / streaming-chat flow of
`src/chat-app-ollama-docker/main.py`, a Streamlit chat front-end over
OpenAI-compatible providers (Ollama, Docker).

The embedding is shallow:

* Python dicts (insertion ordered, last-write-wins on re-insertion of a key)
  are association lists `List (String × α)` with `dictInsert` / `dictLookup`
  mirroring `d[k] = v` and `d[k]`.
* Network calls are abstracted by their outcomes: a provider listing or a
  streaming completion is an `Except String (List String)` — either an
  exception text (`Exception e` in Python) or the successful payload
  (the listed model ids, resp. the streamed text fragments).
* `st.session_state` is `SessionState` (the `models`/`errors` pair set by
  discovery, plus the `messages_<model_id>` transcripts).
* Rendering side effects (`st.warning`, `st.error`, `st.stop`, widgets,
  `st.markdown`, `st.write_stream`) become explicit event lists.
-/

/-- One entry of the `PROVIDERS` configuration dict of `main.py`. -/
structure ProviderConfig where
  name : String
  description : String
  url : String
  api_key : String
  deriving Repr, DecidableEq

/-- The static `PROVIDERS` registry of `main.py` (insertion order preserved). -/
def PROVIDERS : List (String × ProviderConfig) :=
  [("ollama",
    ⟨"Ollama",
     "Ollama is an open-source tool for running large language models locally.",
     "http://localhost:11434/v1",
     "ollama"⟩),
   ("docker",
    ⟨"Docker",
     "Docker is a platform for developing, shipping, and running applications in containers.",
     "http://localhost:12434/engines/v1",
     "unused"⟩)]

/-- Python dict assignment `d[k] = v`: replace the value at the first
occurrence of `k`, keeping its position, or append a new entry. -/
def dictInsert {α : Type} (k : String) (v : α) : List (String × α) → List (String × α)
  | [] => [(k, v)]
  | (k0, v0) :: rest => if k0 = k then (k, v) :: rest else (k0, v0) :: dictInsert k v rest

/-- Python dict read `d.get(k)`: value at the first occurrence of `k`. -/
def dictLookup {α : Type} (k : String) : List (String × α) → Option α
  | [] => none
  | (k0, v0) :: rest => if k0 = k then some v0 else dictLookup k rest

/-- Number of entries of the association list carrying key `k`. -/
def keyCount {α : Type} (k : String) : List (String × α) → Nat
  | [] => 0
  | (k0, _) :: rest => (if k0 = k then 1 else 0) + keyCount k rest

/-- The per-model record stored by `discover_models`:
`{"name": model_id, "provider": provider_key, "display_name": f"{model_id} ({provider name})"}`. -/
structure ModelInfo where
  name : String
  provider : String
  display_name : String
  deriving Repr, DecidableEq

/-- The record inserted for model id `mid` found at provider `pkey` (display
name `pname`), as built in the discovery loop body. -/
def mkModelInfo (mid pkey pname : String) : ModelInfo :=
  ⟨mid, pkey, mid ++ " (" ++ pname ++ ")"⟩

/-- The error string recorded by the `except` branch of the discovery loop:
`f"Could not connect to {name} at {url}: {e}"`. -/
def connectError (cfg : ProviderConfig) (e : String) : String :=
  "Could not connect to " ++ cfg.name ++ " at " ++ cfg.url ++ ": " ++ e

/-- One iteration of the `for provider_key, provider_config in PROVIDERS.items()`
loop of `discover_models`: on success every listed model id is inserted
(overwriting colliding keys); on any exception one error string is appended
and the models accumulator is left untouched. -/
def processProvider (outcomes : String → Except String (List String))
    (acc : List (String × ModelInfo) × List String) (p : String × ProviderConfig) :
    List (String × ModelInfo) × List String :=
  match outcomes p.1 with
  | Except.ok ids =>
      (ids.foldl (fun ms mid => dictInsert mid (mkModelInfo mid p.1 p.2.name) ms) acc.1, acc.2)
  | Except.error e => (acc.1, acc.2 ++ [connectError p.2 e])

/-- `discover_models()` of `main.py`, parametrised by each provider's listing
outcome (`client.models.list()` returning ids, or raising). Returns the
merged `models` dict and the `errors` list. -/
def discover_models (outcomes : String → Except String (List String)) :
    List (String × ModelInfo) × List String :=
  PROVIDERS.foldl (processProvider outcomes) ([], [])

/-- A chat message `{"role": ..., "content": ...}`. -/
structure Message where
  role : String
  content : String
  deriving Repr, DecidableEq

/-- The session-scoped `st.session_state`: the discovery result once stored
(`models` and `errors` are set together), and the `messages_<model_id>`
transcript entries. -/
structure SessionState where
  discovery : Option (List (String × ModelInfo) × List String)
  transcripts : List (String × List Message)
  deriving Repr, DecidableEq

/-- The guard `if "models" not in st.session_state: st.session_state.models,
st.session_state.errors = discover_models()`. The boolean reports whether the
providers were actually queried on this run. -/
def ensureDiscovery (outcomes : String → Except String (List String))
    (st : SessionState) : SessionState × Bool :=
  match st.discovery with
  | some _ => (st, false)
  | none => (⟨some (discover_models outcomes), st.transcripts⟩, true)

/-- The `Clear Chat History` button handler:
`st.session_state[f"messages_{selected_model_id}"] = []`. -/
def clearHistory (st : SessionState) (model_id : String) : SessionState :=
  ⟨st.discovery, dictInsert model_id [] st.transcripts⟩

/-- The provider resolution of the chat turn:
`models[selected_model_id]["provider"]` followed by `PROVIDERS[...]`. -/
def resolveProvider (models : List (String × ModelInfo)) (model_id : String) :
    Option ProviderConfig :=
  (dictLookup model_id models).bind (fun info => dictLookup info.provider PROVIDERS)

/-- The `client.chat.completions.create(...)` call as issued by the chat turn:
the endpoint it is addressed to and its `model`, `messages`, `stream` arguments. -/
structure ChatRequest where
  base_url : String
  model : String
  messages : List Message
  stream : Bool
  deriving Repr, DecidableEq

/-- What the chat turn shows in the main panel: `st.markdown` of the user
prompt, the `st.write_stream` output, or `st.error` of the error text. -/
inductive DisplayEvent where
  | markdown : String → DisplayEvent
  | streamed : String → DisplayEvent
  | errorBox : String → DisplayEvent
  deriving Repr, DecidableEq

/-- Result of one chat turn: the updated transcripts, the completion request
that was issued, and the displayed events. -/
structure TurnResult where
  transcripts : List (String × List Message)
  request : ChatRequest
  displayed : List DisplayEvent
  deriving Repr, DecidableEq

/-- The `if prompt := st.chat_input(...)` handler of `main.py` for a submitted
prompt. `completion` abstracts the streamed completion: `Except.ok fragments`
when the stream delivers those text fragments and ends, `Except.error e` when
creating or consuming the stream raises `e`. Returns `none` when the selected
model id cannot be resolved to a provider (a `KeyError` in Python, which the
selectbox makes unreachable). -/
def sendTurn (models : List (String × ModelInfo))
    (transcripts : List (String × List Message)) (model_id prompt : String)
    (completion : Except String (List String)) : Option TurnResult :=
  match resolveProvider models model_id with
  | none => none
  | some provider_config =>
    let t1 := ((dictLookup model_id transcripts).getD []) ++ [⟨"user", prompt⟩]
    let request : ChatRequest :=
      ⟨provider_config.url, model_id, t1.map (fun m => ⟨m.role, m.content⟩), true⟩
    match completion with
    | Except.ok fragments =>
        let response := String.join fragments
        some ⟨dictInsert model_id (t1 ++ [⟨"assistant", response⟩]) transcripts,
              request, [DisplayEvent.markdown prompt, DisplayEvent.streamed response]⟩
    | Except.error e =>
        let error_message := "An error occurred: " ++ e
        some ⟨dictInsert model_id (t1 ++ [⟨"assistant", error_message⟩]) transcripts,
              request, [DisplayEvent.markdown prompt, DisplayEvent.errorBox error_message]⟩

/-- The `st.error` text of the zero-models fatal state. -/
def noModelsMsg : String :=
  "No models found from any provider. Please ensure Ollama or another provider is running and has models available."

/-- Rendering steps of the script body after discovery: warnings, the fatal
error box, the `st.stop` halt, the model selectbox, transcript bubbles, and
the chat input. -/
inductive RenderEvent where
  | warning : String → RenderEvent
  | errorBox : String → RenderEvent
  | stopped : RenderEvent
  | selectbox : List String → RenderEvent
  | chatMessage : String → String → RenderEvent
  | chatInput : String → RenderEvent
  deriving Repr, DecidableEq

/-- The script body of `main.py` from the error-warning loop to the chat
input, as the sequence of render events it emits: each discovery error is
shown as a warning; with no models an error box is shown and `st.stop()`
halts everything below; otherwise the selectbox (defaulting to the first
option), the selected model's transcript and the chat input are rendered. -/
def renderAfterDiscovery (models : List (String × ModelInfo)) (errors : List String)
    (transcripts : List (String × List Message)) : List RenderEvent :=
  errors.map RenderEvent.warning ++
  if models.isEmpty then
    [RenderEvent.errorBox noModelsMsg, RenderEvent.stopped]
  else
    let model_options := models.foldl (fun acc q => dictInsert q.2.display_name q.1 acc) []
    let selected_display_name := (model_options.map Prod.fst).headD ""
    let selected_model_id := (dictLookup selected_display_name model_options).getD ""
    let transcript := (dictLookup selected_model_id transcripts).getD []
    [RenderEvent.selectbox (model_options.map Prod.fst)] ++
    transcript.map (fun m => RenderEvent.chatMessage m.role m.content) ++
    [RenderEvent.chatInput ("Message " ++ selected_model_id ++ "...")]

/-! ### Concrete provider-outcome worlds used by witnesses -/

/-- World where Ollama is unreachable and Docker lists one model. -/
def oneDownWorld : String → Except String (List String) :=
  fun k => if k = "ollama" then Except.error "connection refused" else Except.ok ["modelA"]

/-- World where both providers list the id `llama3`. -/
def collideWorld : String → Except String (List String) :=
  fun _ => Except.ok ["llama3"]

/-- World where both providers are unreachable. -/
def bothDownWorld : String → Except String (List String) :=
  fun _ => Except.error "connection refused"

example :
    discover_models (fun k => if k = "ollama" then Except.error "boom"
      else Except.ok ["modelA"]) =
    ([("modelA", ⟨"modelA", "docker", "modelA (Docker)"⟩)],
     ["Could not connect to Ollama at http://localhost:11434/v1: boom"]) := by
  decide

example :
    sendTurn [("m", ⟨"m", "ollama", "m (Ollama)"⟩)] [] "m" "hello"
      (Except.ok ["Hi", " there", "!"]) =
    some ⟨[("m", [⟨"user", "hello"⟩, ⟨"assistant", "Hi there!"⟩])],
      ⟨"http://localhost:11434/v1", "m", [⟨"user", "hello"⟩], true⟩,
      [DisplayEvent.markdown "hello", DisplayEvent.streamed "Hi there!"]⟩ := by
  decide

/-! ### Association-list (Python dict) lemmas -/

theorem dictLookup_dictInsert {α : Type} (k k' : String) (v : α) (l : List (String × α)) :
    dictLookup k (dictInsert k' v l) = if k' = k then some v else dictLookup k l := by
  induction l with
  | nil => simp [dictInsert, dictLookup]
  | cons hd tl ih =>
    obtain ⟨k0, v0⟩ := hd
    simp only [dictInsert]
    by_cases h0 : k0 = k'
    · rw [if_pos h0]
      subst h0
      simp only [dictLookup]
      by_cases hk : k0 = k <;> simp [hk]
    · rw [if_neg h0]
      simp only [dictLookup]
      by_cases hk : k0 = k
      · subst hk
        rw [if_pos rfl, if_neg (fun h => h0 h.symm), if_pos rfl]
      · rw [if_neg hk, ih, if_neg hk]

theorem keyCount_dictInsert_ne {α : Type} (k k' : String) (v : α) (l : List (String × α))
    (h : k' ≠ k) : keyCount k (dictInsert k' v l) = keyCount k l := by
  induction l with
  | nil => simp [dictInsert, keyCount, h]
  | cons hd tl ih =>
    obtain ⟨k0, v0⟩ := hd
    by_cases h0 : k0 = k'
    · subst h0
      simp [dictInsert, keyCount, h]
    · simp [dictInsert, if_neg h0, keyCount, ih]

theorem keyCount_dictInsert_self {α : Type} (k : String) (v : α) (l : List (String × α)) :
    keyCount k (dictInsert k v l) = if keyCount k l = 0 then 1 else keyCount k l := by
  induction l with
  | nil => simp [dictInsert, keyCount]
  | cons hd tl ih =>
    obtain ⟨k0, v0⟩ := hd
    by_cases h0 : k0 = k
    · subst h0
      simp [dictInsert, keyCount]
    · simp only [dictInsert, if_neg h0, keyCount, ih]
      simp [h0]

theorem keyCount_dictInsert_le_one {α : Type} (k k' : String) (v : α) (l : List (String × α))
    (h : keyCount k l ≤ 1) : keyCount k (dictInsert k' v l) ≤ 1 := by
  by_cases hk : k' = k
  · subst hk
    rw [keyCount_dictInsert_self]
    split <;> omega
  · rw [keyCount_dictInsert_ne _ _ _ _ hk]
    exact h

theorem keyCount_pos_of_dictLookup {α : Type} (k : String) (v : α) (l : List (String × α))
    (h : dictLookup k l = some v) : 1 ≤ keyCount k l := by
  induction l with
  | nil => simp [dictLookup] at h
  | cons hd tl ih =>
    obtain ⟨k0, v0⟩ := hd
    by_cases h0 : k0 = k
    · simp [keyCount, h0]
    · simp only [dictLookup, if_neg h0] at h
      simp only [keyCount, if_neg h0]
      have := ih h
      omega

/-! ### Lemmas about the discovery folds -/

theorem dictLookup_foldl_insert {α : Type} (f : String → α) (ids : List String)
    (ms : List (String × α)) (k : String) :
    dictLookup k (ids.foldl (fun acc mid => dictInsert mid (f mid) acc) ms) =
      if k ∈ ids then some (f k) else dictLookup k ms := by
  induction ids generalizing ms with
  | nil => simp
  | cons hd tl ih =>
    rw [List.foldl_cons, ih, dictLookup_dictInsert]
    by_cases h1 : k ∈ tl
    · simp [h1]
    · by_cases h2 : k = hd
      · subst h2
        simp [h1]
      · simp [h1, h2, Ne.symm h2]

theorem keyCount_foldl_insert_le_one {α : Type} (f : String → α) (ids : List String)
    (ms : List (String × α)) (k : String) (h : keyCount k ms ≤ 1) :
    keyCount k (ids.foldl (fun acc mid => dictInsert mid (f mid) acc) ms) ≤ 1 := by
  induction ids generalizing ms with
  | nil => simpa using h
  | cons hd tl ih =>
    rw [List.foldl_cons]
    exact ih _ (keyCount_dictInsert_le_one _ _ _ _ h)

theorem errors_foldl_processProvider (outcomes : String → Except String (List String))
    (ps : List (String × ProviderConfig)) (ms : List (String × ModelInfo)) (es : List String) :
    (ps.foldl (processProvider outcomes) (ms, es)).2 =
      es ++ ps.filterMap (fun p =>
        match outcomes p.1 with
        | Except.ok _ => none
        | Except.error e => some (connectError p.2 e)) := by
  induction ps generalizing ms es with
  | nil => simp
  | cons hd tl ih =>
    rw [List.foldl_cons, List.filterMap_cons]
    cases houtcome : outcomes hd.1 with
    | ok ids =>
      simp only [processProvider, houtcome]
      rw [ih]
    | error e =>
      simp only [processProvider, houtcome]
      rw [ih]
      simp

theorem isSome_dictLookup_foldl_processProvider
    (outcomes : String → Except String (List String))
    (ps : List (String × ProviderConfig)) (acc : List (String × ModelInfo) × List String)
    (k : String) (h : (dictLookup k acc.1).isSome = true) :
    (dictLookup k (ps.foldl (processProvider outcomes) acc).1).isSome = true := by
  induction ps generalizing acc with
  | nil => simpa using h
  | cons hd tl ih =>
    rw [List.foldl_cons]
    apply ih
    cases houtcome : outcomes hd.1 with
    | ok ids =>
      simp only [processProvider, houtcome]
      rw [dictLookup_foldl_insert]
      split
      · simp
      · exact h
    | error e =>
      simpa only [processProvider, houtcome] using h

theorem keyCount_foldl_processProvider_le_one
    (outcomes : String → Except String (List String))
    (ps : List (String × ProviderConfig)) (acc : List (String × ModelInfo) × List String)
    (k : String) (h : keyCount k acc.1 ≤ 1) :
    keyCount k (ps.foldl (processProvider outcomes) acc).1 ≤ 1 := by
  induction ps generalizing acc with
  | nil => simpa using h
  | cons hd tl ih =>
    rw [List.foldl_cons]
    apply ih
    cases houtcome : outcomes hd.1 with
    | ok ids =>
      simp only [processProvider, houtcome]
      exact keyCount_foldl_insert_le_one _ _ _ _ h
    | error e =>
      simpa only [processProvider, houtcome] using h

theorem mem_provider_models_foldl
    (outcomes : String → Except String (List String))
    (ps : List (String × ProviderConfig)) (acc : List (String × ModelInfo) × List String)
    (p : String × ProviderConfig) (hp : p ∈ ps) (ids : List String)
    (hok : outcomes p.1 = Except.ok ids) (mid : String) (hmid : mid ∈ ids) :
    (dictLookup mid (ps.foldl (processProvider outcomes) acc).1).isSome = true := by
  induction ps generalizing acc with
  | nil => simp at hp
  | cons hd tl ih =>
    rw [List.foldl_cons]
    rcases List.mem_cons.mp hp with heq | htl
    · subst heq
      apply isSome_dictLookup_foldl_processProvider
      simp only [processProvider, hok]
      rw [dictLookup_foldl_insert]
      simp [hmid]
    · exact ih _ htl

theorem provider_of_foldl_processProvider
    (outcomes : String → Except String (List String))
    (ps : List (String × ProviderConfig)) (acc : List (String × ModelInfo) × List String)
    (k : String) (info : ModelInfo)
    (h : dictLookup k (ps.foldl (processProvider outcomes) acc).1 = some info) :
    dictLookup k acc.1 = some info ∨ info.provider ∈ ps.map Prod.fst := by
  induction ps generalizing acc with
  | nil =>
    left
    simpa using h
  | cons hd tl ih =>
    rw [List.foldl_cons] at h
    rcases ih _ h with hacc | htl
    · cases houtcome : outcomes hd.1 with
      | ok ids =>
        simp only [processProvider, houtcome] at hacc
        rw [dictLookup_foldl_insert] at hacc
        by_cases hk : k ∈ ids
        · rw [if_pos hk] at hacc
          right
          have hinfo := Option.some.inj hacc
          rw [← hinfo]
          simp [mkModelInfo]
        · rw [if_neg hk] at hacc
          exact Or.inl hacc
      | error e =>
        simp only [processProvider, houtcome] at hacc
        exact Or.inl hacc
    · right
      simp [htl]

theorem keyCount_discover_models_le_one
    (outcomes : String → Except String (List String)) (k : String) :
    keyCount k (discover_models outcomes).1 ≤ 1 :=
  keyCount_foldl_processProvider_le_one outcomes PROVIDERS ([], []) k (by simp [keyCount])


/-! ### Claim theorems about discovery -/

/-- C1: `discover_models` is total over all provider outcomes (the embedding
returns for every world, i.e. nothing escapes the per-provider `except`);
`errors` has exactly one entry per failing provider, in provider order, each
being the string built from the provider's display name, its base URL and the
underlying error; and every model id listed by a succeeding provider is still
present as a key of the merged `models` dict. -/
theorem discover_models_error_handling
    (outcomes : String → Except String (List String)) :
    (discover_models outcomes).2 =
      PROVIDERS.filterMap (fun p =>
        match outcomes p.1 with
        | Except.ok _ => none
        | Except.error e => some (connectError p.2 e)) ∧
    (∀ p, p ∈ PROVIDERS → ∀ ids, outcomes p.1 = Except.ok ids → ∀ mid, mid ∈ ids →
      (dictLookup mid (discover_models outcomes).1).isSome = true) := by
  constructor
  · simpa [discover_models] using errors_foldl_processProvider outcomes PROVIDERS [] []
  · intro p hp ids hok mid hmid
    exact mem_provider_models_foldl outcomes PROVIDERS ([], []) p hp ids hok mid hmid

/-- Witness for C1: with Ollama down and Docker listing `modelA`, the errors
list is exactly the Ollama message and `modelA` is discovered. -/
theorem discover_models_error_handling_witness :
    (discover_models oneDownWorld).2 =
      ["Could not connect to Ollama at http://localhost:11434/v1: connection refused"] ∧
    (dictLookup "modelA" (discover_models oneDownWorld).1).isSome = true := by
  constructor
  · exact ((discover_models_error_handling oneDownWorld).1).trans (by decide)
  · exact (discover_models_error_handling oneDownWorld).2
      ("docker",
       ⟨"Docker",
        "Docker is a platform for developing, shipping, and running applications in containers.",
        "http://localhost:12434/engines/v1", "unused"⟩)
      (by decide) ["modelA"] rfl "modelA" (by decide)

/-- C3: each provider's discovery step is atomic: either its listing raised,
the models dict is left untouched and exactly one error string is appended,
or its listing succeeded, no error is appended and every listed id is a key
of the resulting models dict. -/
theorem processProvider_atomic (outcomes : String → Except String (List String))
    (acc : List (String × ModelInfo) × List String) (p : String × ProviderConfig) :
    (∃ e, outcomes p.1 = Except.error e ∧
      processProvider outcomes acc p = (acc.1, acc.2 ++ [connectError p.2 e])) ∨
    (∃ ids, outcomes p.1 = Except.ok ids ∧
      (processProvider outcomes acc p).2 = acc.2 ∧
      ∀ mid, mid ∈ ids →
        (dictLookup mid (processProvider outcomes acc p).1).isSome = true) := by
  cases houtcome : outcomes p.1 with
  | ok ids =>
    right
    refine ⟨ids, rfl, ?_, ?_⟩
    · simp [processProvider, houtcome]
    · intro mid hmid
      simp only [processProvider, houtcome]
      rw [dictLookup_foldl_insert]
      simp [hmid]
  | error e =>
    left
    exact ⟨e, rfl, by simp [processProvider, houtcome]⟩

/-- Witness for C3, instantiated at the Ollama entry in a world where every
listing raises: the step inserts no model and appends exactly the one error
string. -/
theorem processProvider_atomic_witness :
    processProvider bothDownWorld ([], [])
      ("ollama",
       ⟨"Ollama",
        "Ollama is an open-source tool for running large language models locally.",
        "http://localhost:11434/v1", "ollama"⟩) =
      ([], [connectError
        ⟨"Ollama",
         "Ollama is an open-source tool for running large language models locally.",
         "http://localhost:11434/v1", "ollama"⟩ "connection refused"]) := by
  rcases processProvider_atomic bothDownWorld ([], [])
    ("ollama",
     ⟨"Ollama",
      "Ollama is an open-source tool for running large language models locally.",
      "http://localhost:11434/v1", "ollama"⟩) with ⟨e, he, hstep⟩ | ⟨ids, hids, _, _⟩
  · simp only [bothDownWorld, Except.error.injEq] at he
    subst he
    simpa using hstep
  · simp [bothDownWorld] at hids

/-- C4: last-write-wins on id collisions: when both providers list the same
model id, the merged dict has exactly one entry for it, and that entry is the
one inserted by `docker`, the provider processed later in iteration order. -/
theorem discover_models_last_write_wins
    (outcomes : String → Except String (List String)) (ids1 ids2 : List String)
    (mid : String) (h1 : outcomes "ollama" = Except.ok ids1)
    (h2 : outcomes "docker" = Except.ok ids2)
    (_hmid1 : mid ∈ ids1) (hmid2 : mid ∈ ids2) :
    dictLookup mid (discover_models outcomes).1 =
      some (mkModelInfo mid "docker" "Docker") ∧
    keyCount mid (discover_models outcomes).1 = 1 := by
  have hfold : (discover_models outcomes).1 =
      ids2.foldl (fun ms m => dictInsert m (mkModelInfo m "docker" "Docker") ms)
        (ids1.foldl (fun ms m => dictInsert m (mkModelInfo m "ollama" "Ollama") ms) []) := by
    simp only [discover_models, PROVIDERS, List.foldl_cons, List.foldl_nil,
      processProvider, h1, h2]
  have hlook : dictLookup mid (discover_models outcomes).1 =
      some (mkModelInfo mid "docker" "Docker") := by
    rw [hfold, dictLookup_foldl_insert, if_pos hmid2]
  refine ⟨hlook, ?_⟩
  have hle := keyCount_discover_models_le_one outcomes mid
  have hge := keyCount_pos_of_dictLookup mid _ _ hlook
  omega

/-- Witness for C4: both providers list `llama3`; the surviving entry is
Docker's and it is unique. -/
theorem discover_models_last_write_wins_witness :
    dictLookup "llama3" (discover_models collideWorld).1 =
      some (mkModelInfo "llama3" "docker" "Docker") ∧
    keyCount "llama3" (discover_models collideWorld).1 = 1 :=
  discover_models_last_write_wins collideWorld ["llama3"] ["llama3"] "llama3"
    rfl rfl (by decide) (by decide)

/-- C10: every entry of the merged models dict stores a provider key present
in the static `PROVIDERS` registry, so the chat turn's provider resolution
(`models[id]["provider"]` then `PROVIDERS[...]`) succeeds for every
discovered model id. -/
theorem discover_models_provider_resolvable
    (outcomes : String → Except String (List String)) (mid : String) (info : ModelInfo)
    (h : dictLookup mid (discover_models outcomes).1 = some info) :
    ∃ cfg, dictLookup info.provider PROVIDERS = some cfg ∧
      resolveProvider (discover_models outcomes).1 mid = some cfg := by
  have hmem := provider_of_foldl_processProvider outcomes PROVIDERS ([], []) mid info h
  have hres : resolveProvider (discover_models outcomes).1 mid =
      dictLookup info.provider PROVIDERS := by
    rw [resolveProvider, h]
    rfl
  rcases hmem with hacc | hkeys
  · simp [dictLookup] at hacc
  · simp only [PROVIDERS, List.map_cons, List.map_nil, List.mem_cons,
      List.not_mem_nil, or_false] at hkeys
    rcases hkeys with hp | hp
    · refine ⟨⟨"Ollama",
        "Ollama is an open-source tool for running large language models locally.",
        "http://localhost:11434/v1", "ollama"⟩, ?_, ?_⟩
      · rw [hp]; decide
      · rw [hres, hp]; decide
    · refine ⟨⟨"Docker",
        "Docker is a platform for developing, shipping, and running applications in containers.",
        "http://localhost:12434/engines/v1", "unused"⟩, ?_, ?_⟩
      · rw [hp]; decide
      · rw [hres, hp]; decide

/-- Witness for C10: the discovered `modelA` resolves to the Docker config. -/
theorem discover_models_provider_resolvable_witness :
    resolveProvider (discover_models oneDownWorld).1 "modelA" =
      some ⟨"Docker",
        "Docker is a platform for developing, shipping, and running applications in containers.",
        "http://localhost:12434/engines/v1", "unused"⟩ := by
  obtain ⟨cfg, h1, h2⟩ := discover_models_provider_resolvable oneDownWorld "modelA"
    ⟨"modelA", "docker", "modelA (Docker)"⟩ (by decide)
  exact h2.trans (h1.symm.trans (by decide))

/-! ### Claim theorems about session state and rendering -/

/-- C6: discovery is memoized within a session: once a session state holds a
discovery result, a further `ensureDiscovery` returns the state unchanged and
reports that the providers were not queried, even under a different provider
world. -/
theorem ensureDiscovery_memoized
    (outcomes1 outcomes2 : String → Except String (List String)) (st : SessionState) :
    ensureDiscovery outcomes2 (ensureDiscovery outcomes1 st).1 =
      ((ensureDiscovery outcomes1 st).1, false) := by
  cases h : st.discovery with
  | some r => simp [ensureDiscovery, h]
  | none => simp [ensureDiscovery, h]

/-- C7: clearing one model's chat history empties exactly that model's
transcript and leaves the discovery result (models and errors) and every
other model's transcript unchanged. -/
theorem clearHistory_frame (st : SessionState) (model_id : String) :
    (clearHistory st model_id).discovery = st.discovery ∧
    dictLookup model_id (clearHistory st model_id).transcripts = some [] ∧
    ∀ k, k ≠ model_id →
      dictLookup k (clearHistory st model_id).transcripts = dictLookup k st.transcripts := by
  refine ⟨rfl, ?_, ?_⟩
  · show dictLookup model_id (dictInsert model_id [] st.transcripts) = some []
    rw [dictLookup_dictInsert, if_pos rfl]
  · intro k hk
    show dictLookup k (dictInsert model_id [] st.transcripts) = dictLookup k st.transcripts
    rw [dictLookup_dictInsert, if_neg (fun h => hk h.symm)]

/-- Witness for C7 on a two-transcript session: clearing `b` empties `b` and
leaves `a` and the discovery result untouched. -/
theorem clearHistory_frame_witness :
    (clearHistory ⟨none, [("a", [⟨"user", "hi"⟩]), ("b", [⟨"user", "yo"⟩])]⟩ "b").discovery
      = none ∧
    dictLookup "b"
      (clearHistory ⟨none, [("a", [⟨"user", "hi"⟩]), ("b", [⟨"user", "yo"⟩])]⟩ "b").transcripts
      = some [] ∧
    dictLookup "a"
      (clearHistory ⟨none, [("a", [⟨"user", "hi"⟩]), ("b", [⟨"user", "yo"⟩])]⟩ "b").transcripts
      = some [⟨"user", "hi"⟩] := by
  refine ⟨(clearHistory_frame _ "b").1, (clearHistory_frame _ "b").2.1, ?_⟩
  rw [(clearHistory_frame
    (⟨none, [("a", [⟨"user", "hi"⟩]), ("b", [⟨"user", "yo"⟩])]⟩ : SessionState) "b").2.2
    "a" (by decide)]
  decide

/-- C8: with zero discovered models the script shows the discovery warnings
followed by the fatal error box and the halt, and nothing below (no selector,
no transcript bubbles, no chat input) is rendered; with at least one model
rendering continues: the selectbox and the chat input appear and no fatal
state is emitted. -/
theorem renderAfterDiscovery_fatal_iff_no_models
    (models : List (String × ModelInfo)) (errors : List String)
    (transcripts : List (String × List Message)) :
    (models = [] →
      renderAfterDiscovery models errors transcripts =
        errors.map RenderEvent.warning ++
          [RenderEvent.errorBox noModelsMsg, RenderEvent.stopped] ∧
      (∀ opts, RenderEvent.selectbox opts ∉ renderAfterDiscovery models errors transcripts) ∧
      (∀ ph, RenderEvent.chatInput ph ∉ renderAfterDiscovery models errors transcripts) ∧
      (∀ ro c, RenderEvent.chatMessage ro c ∉ renderAfterDiscovery models errors transcripts)) ∧
    (models ≠ [] →
      (∃ opts, RenderEvent.selectbox opts ∈ renderAfterDiscovery models errors transcripts) ∧
      (∃ ph, RenderEvent.chatInput ph ∈ renderAfterDiscovery models errors transcripts) ∧
      RenderEvent.stopped ∉ renderAfterDiscovery models errors transcripts ∧
      RenderEvent.errorBox noModelsMsg ∉ renderAfterDiscovery models errors transcripts) := by
  constructor
  · intro hm
    subst hm
    have hr : renderAfterDiscovery [] errors transcripts =
        errors.map RenderEvent.warning ++
          [RenderEvent.errorBox noModelsMsg, RenderEvent.stopped] := by
      simp [renderAfterDiscovery]
    refine ⟨hr, ?_, ?_, ?_⟩
    · intro opts hmem
      rw [hr] at hmem
      simp at hmem
    · intro ph hmem
      rw [hr] at hmem
      simp at hmem
    · intro ro c hmem
      rw [hr] at hmem
      simp at hmem
  · intro hm
    have hcond : ¬((models.isEmpty) = true) := by
      simp [List.isEmpty_iff, hm]
    have hr : renderAfterDiscovery models errors transcripts =
        errors.map RenderEvent.warning ++
        ([RenderEvent.selectbox
            ((models.foldl (fun acc q => dictInsert q.2.display_name q.1 acc) []).map Prod.fst)] ++
          ((dictLookup
              ((dictLookup
                  (((models.foldl (fun acc q => dictInsert q.2.display_name q.1 acc) []).map
                      Prod.fst).headD "")
                  (models.foldl (fun acc q => dictInsert q.2.display_name q.1 acc) [])).getD "")
              transcripts).getD []).map (fun m => RenderEvent.chatMessage m.role m.content) ++
          [RenderEvent.chatInput ("Message " ++
            ((dictLookup
                (((models.foldl (fun acc q => dictInsert q.2.display_name q.1 acc) []).map
                    Prod.fst).headD "")
                (models.foldl (fun acc q => dictInsert q.2.display_name q.1 acc) [])).getD "")
            ++ "...")]) := by
      unfold renderAfterDiscovery
      rw [if_neg hcond]
    refine ⟨⟨(models.foldl (fun acc q => dictInsert q.2.display_name q.1 acc) []).map Prod.fst,
        ?_⟩,
      ⟨"Message " ++
        ((dictLookup
            (((models.foldl (fun acc q => dictInsert q.2.display_name q.1 acc) []).map
                Prod.fst).headD "")
            (models.foldl (fun acc q => dictInsert q.2.display_name q.1 acc) [])).getD "")
        ++ "...", ?_⟩, ?_, ?_⟩
    · rw [hr]
      simp
    · rw [hr]
      simp
    · intro hmem
      rw [hr] at hmem
      simp at hmem
    · intro hmem
      rw [hr] at hmem
      simp at hmem

/-! ### Unfolding lemmas for the chat turn -/

theorem sendTurn_eq_none (models : List (String × ModelInfo))
    (transcripts : List (String × List Message)) (model_id prompt : String)
    (completion : Except String (List String))
    (hres : resolveProvider models model_id = none) :
    sendTurn models transcripts model_id prompt completion = none := by
  unfold sendTurn
  rw [hres]

theorem sendTurn_eq_ok (models : List (String × ModelInfo))
    (transcripts : List (String × List Message)) (model_id prompt : String)
    (fragments : List String) (provider_config : ProviderConfig)
    (hres : resolveProvider models model_id = some provider_config) :
    sendTurn models transcripts model_id prompt (Except.ok fragments) =
      some ⟨dictInsert model_id
              ((((dictLookup model_id transcripts).getD []) ++ [⟨"user", prompt⟩]) ++
                [⟨"assistant", String.join fragments⟩]) transcripts,
            ⟨provider_config.url, model_id,
             (List.map (fun m : Message => (⟨m.role, m.content⟩ : Message))
               (((dictLookup model_id transcripts).getD []) ++ [(⟨"user", prompt⟩ : Message)])),
             true⟩,
            [DisplayEvent.markdown prompt, DisplayEvent.streamed (String.join fragments)]⟩ := by
  unfold sendTurn
  rw [hres]

theorem sendTurn_eq_error (models : List (String × ModelInfo))
    (transcripts : List (String × List Message)) (model_id prompt e : String)
    (provider_config : ProviderConfig)
    (hres : resolveProvider models model_id = some provider_config) :
    sendTurn models transcripts model_id prompt (Except.error e) =
      some ⟨dictInsert model_id
              ((((dictLookup model_id transcripts).getD []) ++ [⟨"user", prompt⟩]) ++
                [⟨"assistant", "An error occurred: " ++ e⟩]) transcripts,
            ⟨provider_config.url, model_id,
             (List.map (fun m : Message => (⟨m.role, m.content⟩ : Message))
               (((dictLookup model_id transcripts).getD []) ++ [(⟨"user", prompt⟩ : Message)])),
             true⟩,
            [DisplayEvent.markdown prompt,
             DisplayEvent.errorBox ("An error occurred: " ++ e)]⟩ := by
  unfold sendTurn
  rw [hres]

/-- The list comprehension `[{"role": m["role"], "content": m["content"]} for m in t]`
rebuilds the transcript unchanged. -/
theorem map_role_content (l : List Message) :
    l.map (fun m => (⟨m.role, m.content⟩ : Message)) = l := by
  induction l with
  | nil => rfl
  | cons hd tl ih => simp [ih]

/-! ### Claim theorems about the chat turn -/

/-- C2: a chat turn on a submitted non-empty prompt grows exactly the
selected model's transcript by exactly two messages: the user message
followed by the assembled assistant reply on success, or by the
error-as-assistant message on failure; every other model's transcript is
untouched. -/
theorem sendTurn_appends_two (models : List (String × ModelInfo))
    (transcripts : List (String × List Message)) (model_id prompt : String)
    (completion : Except String (List String)) (r : TurnResult)
    (_hprompt : prompt ≠ "")
    (hr : sendTurn models transcripts model_id prompt completion = some r) :
    ((dictLookup model_id r.transcripts).getD []).length =
      ((dictLookup model_id transcripts).getD []).length + 2 ∧
    (dictLookup model_id r.transcripts).getD [] =
      ((dictLookup model_id transcripts).getD []) ++
        [⟨"user", prompt⟩,
         match completion with
         | Except.ok fragments => ⟨"assistant", String.join fragments⟩
         | Except.error e => ⟨"assistant", "An error occurred: " ++ e⟩] ∧
    ∀ k, k ≠ model_id → dictLookup k r.transcripts = dictLookup k transcripts := by
  cases hres : resolveProvider models model_id with
  | none =>
    rw [sendTurn_eq_none _ _ _ _ _ hres] at hr
    cases hr
  | some provider_config =>
    cases completion with
    | ok fragments =>
      rw [sendTurn_eq_ok _ _ _ _ _ _ hres] at hr
      obtain rfl := Option.some.inj hr
      refine ⟨?_, ?_, ?_⟩
      · dsimp only
        rw [dictLookup_dictInsert, if_pos rfl]
        simp
      · dsimp only
        rw [dictLookup_dictInsert, if_pos rfl]
        simp
      · intro k hk
        dsimp only
        rw [dictLookup_dictInsert, if_neg (fun h => hk h.symm)]
    | error e =>
      rw [sendTurn_eq_error _ _ _ _ _ _ hres] at hr
      obtain rfl := Option.some.inj hr
      refine ⟨?_, ?_, ?_⟩
      · dsimp only
        rw [dictLookup_dictInsert, if_pos rfl]
        simp
      · dsimp only
        rw [dictLookup_dictInsert, if_pos rfl]
        simp
      · intro k hk
        dsimp only
        rw [dictLookup_dictInsert, if_neg (fun h => hk h.symm)]

/-- Witness for C2: sending `hello` to a fresh transcript with stream
fragments `["Hi", " there", "!"]` yields a length-2 transcript consisting of
the user message and the assembled reply, and leaves other keys untouched. -/
theorem sendTurn_appends_two_witness :
    ((dictLookup "m" [("m", [(⟨"user", "hello"⟩ : Message),
        ⟨"assistant", "Hi there!"⟩])]).getD []).length =
      ((dictLookup "m" ([] : List (String × List Message))).getD []).length + 2 ∧
    (dictLookup "m" [("m", [(⟨"user", "hello"⟩ : Message),
        ⟨"assistant", "Hi there!"⟩])]).getD [] =
      ((dictLookup "m" ([] : List (String × List Message))).getD []) ++
        [⟨"user", "hello"⟩, ⟨"assistant", String.join ["Hi", " there", "!"]⟩] ∧
    dictLookup "other" [("m", [(⟨"user", "hello"⟩ : Message),
        ⟨"assistant", "Hi there!"⟩])] =
      dictLookup "other" ([] : List (String × List Message)) := by
  have h := sendTurn_appends_two [("m", mkModelInfo "m" "ollama" "Ollama")] [] "m" "hello"
    (Except.ok ["Hi", " there", "!"])
    ⟨[("m", [⟨"user", "hello"⟩, ⟨"assistant", "Hi there!"⟩])],
     ⟨"http://localhost:11434/v1", "m", [⟨"user", "hello"⟩], true⟩,
     [DisplayEvent.markdown "hello", DisplayEvent.streamed "Hi there!"]⟩
    (by decide) (by decide)
  exact ⟨h.1, h.2.1, h.2.2 "other" (by decide)⟩

/-- C5: on any failure while issuing or consuming the streaming completion,
the message appended after the user message has role `assistant` and content
exactly the `"An error occurred: "` text; it becomes the transcript's last
message, the same text is surfaced to the display sink as an error box, and
it is stored like any assistant reply: any later turn only appends two more
messages after it. -/
theorem sendTurn_error_recorded (models : List (String × ModelInfo))
    (transcripts : List (String × List Message)) (model_id prompt e : String)
    (r : TurnResult)
    (hr : sendTurn models transcripts model_id prompt (Except.error e) = some r) :
    (dictLookup model_id r.transcripts).getD [] =
      ((dictLookup model_id transcripts).getD []) ++
        [⟨"user", prompt⟩, ⟨"assistant", "An error occurred: " ++ e⟩] ∧
    ((dictLookup model_id r.transcripts).getD []).getLast? =
      some ⟨"assistant", "An error occurred: " ++ e⟩ ∧
    DisplayEvent.errorBox ("An error occurred: " ++ e) ∈ r.displayed ∧
    (∀ prompt2 completion2 r2,
      sendTurn models r.transcripts model_id prompt2 completion2 = some r2 →
      ∃ m1 m2, (dictLookup model_id r2.transcripts).getD [] =
        ((dictLookup model_id r.transcripts).getD []) ++ [m1, m2]) := by
  cases hres : resolveProvider models model_id with
  | none =>
    rw [sendTurn_eq_none _ _ _ _ _ hres] at hr
    cases hr
  | some provider_config =>
    rw [sendTurn_eq_error _ _ _ _ _ _ hres] at hr
    obtain rfl := Option.some.inj hr
    have hself : (dictLookup model_id
        (dictInsert model_id
          ((((dictLookup model_id transcripts).getD []) ++ [⟨"user", prompt⟩]) ++
            [⟨"assistant", "An error occurred: " ++ e⟩]) transcripts)).getD [] =
        (((dictLookup model_id transcripts).getD []) ++ [⟨"user", prompt⟩]) ++
          [⟨"assistant", "An error occurred: " ++ e⟩] := by
      rw [dictLookup_dictInsert, if_pos rfl]
      rfl
    refine ⟨?_, ?_, ?_, ?_⟩
    · dsimp only
      rw [hself]
      simp
    · dsimp only
      rw [hself, List.getLast?_append_cons]
      rfl
    · dsimp only
      simp
    · intro prompt2 completion2 r2 hr2
      cases completion2 with
      | ok fragments2 =>
        rw [sendTurn_eq_ok _ _ _ _ _ _ hres] at hr2
        obtain rfl := Option.some.inj hr2
        refine ⟨⟨"user", prompt2⟩, ⟨"assistant", String.join fragments2⟩, ?_⟩
        dsimp only
        rw [dictLookup_dictInsert, if_pos rfl]
        simp
      | error e2 =>
        rw [sendTurn_eq_error _ _ _ _ _ _ hres] at hr2
        obtain rfl := Option.some.inj hr2
        refine ⟨⟨"user", prompt2⟩, ⟨"assistant", "An error occurred: " ++ e2⟩, ?_⟩
        dsimp only
        rw [dictLookup_dictInsert, if_pos rfl]
        simp

/-- Witness for C5: a completion raising `timeout` leaves the transcript
ending in the error-as-assistant message, which is also surfaced as an error
box. -/
theorem sendTurn_error_recorded_witness :
    (dictLookup "m" [("m", [(⟨"user", "hello"⟩ : Message),
        ⟨"assistant", "An error occurred: timeout"⟩])]).getD [] =
      ((dictLookup "m" ([] : List (String × List Message))).getD []) ++
        [⟨"user", "hello"⟩, ⟨"assistant", "An error occurred: " ++ "timeout"⟩] ∧
    ((dictLookup "m" [("m", [(⟨"user", "hello"⟩ : Message),
        ⟨"assistant", "An error occurred: timeout"⟩])]).getD []).getLast? =
      some ⟨"assistant", "An error occurred: " ++ "timeout"⟩ ∧
    DisplayEvent.errorBox ("An error occurred: " ++ "timeout") ∈
      [DisplayEvent.markdown "hello",
       DisplayEvent.errorBox "An error occurred: timeout"] := by
  have h := sendTurn_error_recorded [("m", mkModelInfo "m" "ollama" "Ollama")] [] "m" "hello"
    "timeout"
    ⟨[("m", [⟨"user", "hello"⟩, ⟨"assistant", "An error occurred: timeout"⟩])],
     ⟨"http://localhost:11434/v1", "m", [⟨"user", "hello"⟩], true⟩,
     [DisplayEvent.markdown "hello", DisplayEvent.errorBox "An error occurred: timeout"]⟩
    (by decide)
  exact ⟨h.1, h.2.1, h.2.2.1⟩

/-- C9: the streaming completion request of a chat turn is addressed to the
owning provider's base URL and carries the selected model id, streaming
enabled, and as messages exactly the selected model's full transcript in
order, including the just-appended user message. -/
theorem sendTurn_request_spec (models : List (String × ModelInfo))
    (transcripts : List (String × List Message)) (model_id prompt : String)
    (completion : Except String (List String)) (provider_config : ProviderConfig)
    (r : TurnResult)
    (hres : resolveProvider models model_id = some provider_config)
    (hr : sendTurn models transcripts model_id prompt completion = some r) :
    r.request = ⟨provider_config.url, model_id,
      ((dictLookup model_id transcripts).getD []) ++ [⟨"user", prompt⟩], true⟩ := by
  cases completion with
  | ok fragments =>
    rw [sendTurn_eq_ok _ _ _ _ _ _ hres] at hr
    obtain rfl := Option.some.inj hr
    dsimp only
    rw [map_role_content]
  | error e =>
    rw [sendTurn_eq_error _ _ _ _ _ _ hres] at hr
    obtain rfl := Option.some.inj hr
    dsimp only
    rw [map_role_content]

/-- Witness for C9: resuming a two-message transcript with prompt `hello`
issues a request to the Ollama URL carrying the three-message history,
`model = m` and `stream = true`. -/
theorem sendTurn_request_spec_witness :
    (⟨[("m", [⟨"user", "a"⟩, ⟨"assistant", "b"⟩, ⟨"user", "hello"⟩, ⟨"assistant", "x"⟩])],
      ⟨"http://localhost:11434/v1", "m",
       [⟨"user", "a"⟩, ⟨"assistant", "b"⟩, ⟨"user", "hello"⟩], true⟩,
      [DisplayEvent.markdown "hello", DisplayEvent.streamed "x"]⟩ : TurnResult).request =
    ⟨"http://localhost:11434/v1", "m",
     ((dictLookup "m" [("m", [(⟨"user", "a"⟩ : Message), ⟨"assistant", "b"⟩])]).getD []) ++
       [⟨"user", "hello"⟩], true⟩ :=
  sendTurn_request_spec [("m", mkModelInfo "m" "ollama" "Ollama")]
    [("m", [⟨"user", "a"⟩, ⟨"assistant", "b"⟩])] "m" "hello" (Except.ok ["x"])
    ⟨"Ollama", "Ollama is an open-source tool for running large language models locally.",
     "http://localhost:11434/v1", "ollama"⟩
    ⟨[("m", [⟨"user", "a"⟩, ⟨"assistant", "b"⟩, ⟨"user", "hello"⟩, ⟨"assistant", "x"⟩])],
     ⟨"http://localhost:11434/v1", "m",
      [⟨"user", "a"⟩, ⟨"assistant", "b"⟩, ⟨"user", "hello"⟩], true⟩,
     [DisplayEvent.markdown "hello", DisplayEvent.streamed "x"]⟩
    (by decide) (by decide)

/-- Witness for C8: with one warning and no models the render trace is the
warning, the fatal error box and the halt; with one model no halt is
emitted. -/
theorem renderAfterDiscovery_fatal_iff_no_models_witness :
    renderAfterDiscovery [] ["err1"] [] =
      List.map RenderEvent.warning ["err1"] ++
        [RenderEvent.errorBox noModelsMsg, RenderEvent.stopped] ∧
    RenderEvent.stopped ∉
      renderAfterDiscovery [("m", mkModelInfo "m" "docker" "Docker")] [] [] :=
  ⟨((renderAfterDiscovery_fatal_iff_no_models [] ["err1"] []).1 rfl).1,
   ((renderAfterDiscovery_fatal_iff_no_models
      [("m", mkModelInfo "m" "docker" "Docker")] [] []).2 (by decide)).2.2.1⟩
